import Mathlib

/-!
Verification development for the AI-OCR PDF extractor's upload pipeline
(`src/app/api/files/upload/route.ts`), its helper `createEmptyResumeTemplate`
(`src/utils/resumeTemplate.ts`), and the request builder of the secondary
route (`src/app/api/extract/route.ts`).

The route handler is embedded as a pure function over an explicit
environment (`Env`) that supplies the outcomes of every external effect the
handler awaits (session lookup, database reads/writes, the PDF parser, the
PDF.co conversion API, the OpenAI call), together with an explicit store
state (`Store`) modelling the rows the handler touches (the principal's
credit balance, the single file record of the request, the stored resume
data, and the append-only history table).

JavaScript values that cross the OpenAI boundary are modelled with a small
JSON datatype; image payloads are modelled by their MIME type and the
length of their base64 payload, which is all the source ever inspects.
-/

namespace OcrPipeline

set_option maxRecDepth 1000000

/-- JSON values, the shape of `JSON.parse` output in the route handler.
`null` also stands for JavaScript `undefined` (both are falsy and both are
produced by a failed property lookup, which is the only way the handler
distinguishes them). -/
inductive Json where
  | null
  | bool (b : Bool)
  | num (n : Int)
  | str (s : String)
  | arr (items : List Json)
  | obj (fields : List (String × Json))

/-- First value bound to key `k`, or `null` when absent (JS property read). -/
def findField : List (String × Json) → String → Json
  | [], _ => Json.null
  | (k', v) :: rest, k => if k' = k then v else findField rest k

/-- JS property access `j[k]` with optional chaining: non-objects and
missing keys give `null` (standing for `undefined`). -/
def getField (j : Json) (k : String) : Json :=
  match j with
  | .obj fields => findField fields k
  | _ => Json.null

/-- JS falsiness (`!x`): `undefined`/`null`, `false`, `0` and `""` are
falsy; arrays and objects are always truthy. -/
def jfalsy : Json → Bool
  | .null => true
  | .bool b => !b
  | .num n => decide (n = 0)
  | .str s => decide (s = "")
  | .arr _ => false
  | .obj _ => false

/-- Models `!x || x.length === 0` as used on the array-valued fields at
route.ts:386-389 (missing field, or an empty array; a string field would
compare its length). -/
def noLength (j : Json) : Bool :=
  jfalsy j ||
    (match j with
     | .arr xs => xs.isEmpty
     | .str s => decide (s.length = 0)
     | _ => false)

/-- The `isEmpty` pathology check at route.ts:383-389: no profile name and
no surname, and empty/missing workExperiences, educations and skills. -/
def isEmptyResult (r : Json) : Bool :=
  jfalsy r ||
    (jfalsy (getField (getField r "profile") "name") &&
     jfalsy (getField (getField r "profile") "surname") &&
     noLength (getField r "workExperiences") &&
     noLength (getField r "educations") &&
     noLength (getField r "skills"))

/-- Modelled from the spec: the repository imports `reorderResumeData` from
`@/utils/resumeOrder`, a file that is not part of the provided sources.
Spec §4.6 describes it as re-ordering the structured result's fields into a
canonical order, and §3 states the invariant that the result is
template-shaped (always carries all eight array keys plus `profile`, never
a partial object). The profile is rebuilt with the canonical profile keys
of spec §6. -/
def reorderProfile (p : Json) : Json :=
  Json.obj
    [("name", getField p "name"),
     ("surname", getField p "surname"),
     ("email", getField p "email"),
     ("headline", getField p "headline"),
     ("professionalSummary", getField p "professionalSummary"),
     ("linkedIn", getField p "linkedIn"),
     ("website", getField p "website"),
     ("country", getField p "country"),
     ("city", getField p "city"),
     ("relocation", getField p "relocation"),
     ("remote", getField p "remote")]

/-- Modelled from the spec: a section of the normalized result is an array;
anything that is not an array becomes the template's empty array. The spec
does not state any re-ordering criterion for the entries themselves, so the
entry sequence is kept. -/
def reorderSection (j : Json) : Json :=
  match j with
  | .arr xs => .arr xs
  | _ => .arr []

/-- The nine top-level keys of a structured result, in the template order
of `createEmptyResumeTemplate` (resumeTemplate.ts:6-30). -/
def resumeKeys : List String :=
  ["profile", "workExperiences", "educations", "skills", "licenses",
   "languages", "achievements", "publications", "honors"]

/-- Modelled from the spec: `reorderResumeData` (imported from the absent
`@/utils/resumeOrder`), the result normalizer of spec §4.6. It rebuilds
the result template-shaped: exactly the nine canonical top-level keys in
template order, with each array section forced to an array and the profile
rebuilt with the canonical profile keys. -/
def reorderResumeData (j : Json) : Json :=
  Json.obj
    [("profile", reorderProfile (getField j "profile")),
     ("workExperiences", reorderSection (getField j "workExperiences")),
     ("educations", reorderSection (getField j "educations")),
     ("skills", reorderSection (getField j "skills")),
     ("licenses", reorderSection (getField j "licenses")),
     ("languages", reorderSection (getField j "languages")),
     ("achievements", reorderSection (getField j "achievements")),
     ("publications", reorderSection (getField j "publications")),
     ("honors", reorderSection (getField j "honors"))]

/-- The top-level key list of a JSON value (empty for non-objects). -/
def topKeys : Json → List String
  | .obj fields => fields.map Prod.fst
  | _ => []

/-! ## String containment, modelling `String.prototype.includes` -/

/-- `pat` is a prefix of `s` (over character lists). -/
def isPrefixOfL : List Char → List Char → Bool
  | [], _ => true
  | _ :: _, [] => false
  | a :: as, b :: bs => a == b && isPrefixOfL as bs

/-- `pat` occurs somewhere in `s` (over character lists). -/
def containsL : List Char → List Char → Bool
  | s, pat =>
    isPrefixOfL pat s ||
      (match s with
       | [] => false
       | _ :: rest => containsL rest pat)

/-- JS `msg.includes(pat)`. -/
def containsSub (s pat : String) : Bool :=
  containsL s.data pat.data

/-! ## Raw Text Extractor (`extractTextFromPDF`, route.ts:521-597) -/

/-- JS `s.trim()`: strip whitespace from both ends (modelled over the
character list). -/
def jsTrim (s : String) : String :=
  ⟨((s.data.dropWhile Char.isWhitespace).reverse.dropWhile Char.isWhitespace).reverse⟩

/-- Outcomes of the pdf2json parse that `extractTextFromPDF` awaits:
either the 30-second race timeout fires first, or the parser reports an
error (`pdfParser_dataError`) or delivers raw text content (with `""` when
`getRawTextContent` itself threw, route.ts:561). -/
structure TextEnv where
  timedOut : Bool
  parserOutcome : Except String String

/-- `extractTextFromPDF` (route.ts:521-597): trims the parsed text; wraps
every failure, including the 30-second timeout, in the
`Failed to extract text from PDF:` message (route.ts:591-595). The scoped
temp file is a resource concern with no observable value-level effect. -/
def extractTextFromPDF (e : TextEnv) : Except String String :=
  if e.timedOut then
    .error "Failed to extract text from PDF: PDF parsing timeout after 30 seconds"
  else
    match e.parserOutcome with
    | .ok t => .ok (jsTrim t)
    | .error m => .error ("Failed to extract text from PDF: " ++ m)

/-! ## Image payloads -/

/-- A `data:<mime>;base64,<payload>` image data URL, represented by its
MIME type and the length of its base64 payload (the only attributes the
source ever inspects). -/
structure DataUrl where
  mime : String
  payloadLen : Nat

/-- Length of the full data URL string: `"data:"` (5) + mime +
`";base64,"` (8) + payload. -/
def DataUrl.urlLength (d : DataUrl) : Nat :=
  5 + d.mime.length + 8 + d.payloadLen

/-- Length of Node's `Buffer.toString("base64")` for an `n`-byte buffer
(4 characters per 3-byte group, padded). -/
def base64Length (n : Nat) : Nat :=
  4 * ((n + 2) / 3)

/-! ## Embedded Image Extractor (`extractImagesAsBase64`, route.ts:605-753) -/

/-- An XObject of a page's resource dictionary: whether its `Subtype` is
`Image`, and its byte stream (route.ts:643-660; `[]` models absent data,
which is falsy in the `if (imageBytes && ...)` guard). -/
structure XObj where
  isImage : Bool
  bytes : List Nat

/-- A PDF page as the extractor sees it: its XObjects in dictionary order,
and whether touching the page throws (the per-page catch at
route.ts:707-713 skips such a page). -/
structure PdfPage where
  broken : Bool
  xobjects : List XObj

/-- A loaded PDF document. -/
structure PdfDoc where
  pages : List PdfPage

/-- Magic-byte sniffing (route.ts:663-676): `FF D8` is JPEG, `89 50` is
PNG, anything else defaults to JPEG. -/
def sniffMime (bytes : List Nat) : String :=
  match bytes with
  | 0xff :: 0xd8 :: _ => "image/jpeg"
  | 0x89 :: 0x50 :: _ => "image/png"
  | _ => "image/jpeg"

/-- The data URL built for one embedded XObject (route.ts:678-680). -/
def xobjDataUrl (x : XObj) : DataUrl :=
  ⟨sniffMime x.bytes, base64Length x.bytes.length⟩

/-- The per-page XObject scan (route.ts:643-704): first `Image` XObject
with more than 1000 bytes whose data URL stays within 4,000,000
characters wins (`break`); an oversized image is skipped (`continue`) and
the scan goes on with the next XObject. -/
def pageScan : List XObj → Option DataUrl
  | [] => none
  | x :: rest =>
    if x.isImage && decide (1000 < x.bytes.length) then
      if 4000000 < (xobjDataUrl x).urlLength then pageScan rest
      else some (xobjDataUrl x)
    else pageScan rest

/-- Image of one page: none when the page-level catch fired. -/
def extractPageImage (p : PdfPage) : Option DataUrl :=
  if p.broken then none else pageScan p.xobjects

/-- Embedded images of the first `min(pageCount, 3)` pages, one per page
at most (route.ts:624-714). -/
def embeddedImages (doc : PdfDoc) : List DataUrl :=
  (doc.pages.take 3).filterMap extractPageImage

/-! ## Remote Rasterization Fallback (`convertPdfToImageViaApi`, route.ts:760-924) -/

/-- Outcomes of the PDF.co interaction: whether the `PDFCO_API_KEY` is
configured, the upload call's outcome, the conversion call's outcome, the
download outcome per returned page URL (`some n` = an `n`-byte image body,
`none` = a failed fetch), and the optional direct base64 body (its string
length). -/
structure PdfCoEnv where
  apiKeyConfigured : Bool
  uploadOk : Bool
  uploadStatusText : String
  uploadUrl : Option String
  convertOk : Bool
  convertStatusText : String
  pageDownloads : List (Option Nat)
  convertBody : Option Nat

/-- The distinguished missing-capability error thrown when no
`PDFCO_API_KEY` is configured (route.ts:765-767). -/
def scannedPdfLimitationMsg : String :=
  "SCANNED_PDF_LIMITATION: No embedded images found in PDF and no PDF conversion API configured. Please:\n1. Convert your PDF to a text-based format using OCR software\n2. Or configure PDFCO_API_KEY environment variable for PDF-to-image conversion"

/-- The try/catch at route.ts:797-923 wraps every inner API error. -/
def wrapApi (m : String) : String :=
  "Failed to convert PDF to image via API: " ++ m

/-- One page download (route.ts:875-895): a failed fetch yields `null`, a
downloaded body becomes a PNG data URL, dropped when its data URL exceeds
4,000,000 characters. -/
def downloadDataUrl : Option Nat → Option DataUrl
  | none => none
  | some n =>
    if 4000000 < (DataUrl.mk "image/png" (base64Length n)).urlLength then none
    else some ⟨"image/png", base64Length n⟩

/-- The page cap of the download fan-out (route.ts:871-872):
`maxPagesToConvert || Math.min(convertData.urls.length, 3)` where
`maxPagesToConvert = Math.min(pageCount, 3)` (0 is falsy in JS). -/
def convertMaxPages (doc : PdfDoc) (env : PdfCoEnv) : Nat :=
  if min doc.pages.length 3 ≠ 0 then min doc.pages.length 3
  else min env.pageDownloads.length 3

/-- The images surviving the parallel page downloads
(route.ts:873-900): the first `convertMaxPages` URLs are fetched and the
failed or oversized ones are filtered out. -/
def downloadedImages (doc : PdfDoc) (env : PdfCoEnv) : List DataUrl :=
  (env.pageDownloads.take (convertMaxPages doc env)).filterMap downloadDataUrl

/-- `convertPdfToImageViaApi` (route.ts:760-924). The missing-key throw
precedes the try block, so it is not wrapped. A direct base64 `body`
response is returned with no size check (route.ts:908-910). -/
def convertPdfToImageViaApi (doc : PdfDoc) (env : PdfCoEnv) :
    Except String (List DataUrl) :=
  if !env.apiKeyConfigured then .error scannedPdfLimitationMsg
  else if !env.uploadOk then
    .error (wrapApi ("PDF upload API failed: " ++ env.uploadStatusText))
  else
    match env.uploadUrl with
    | none => .error (wrapApi "PDF.co upload API did not return a URL")
    | some _ =>
      if !env.convertOk then
        .error (wrapApi ("PDF conversion API failed: " ++ env.convertStatusText))
      else if 0 < env.pageDownloads.length then
        if 0 < (downloadedImages doc env).length then .ok (downloadedImages doc env)
        else .error (wrapApi "Failed to convert PDF pages to images")
      else
        match env.convertBody with
        | some n => .ok [⟨"image/png", n⟩]
        | none => .error (wrapApi "PDF conversion API returned no image data")

/-- The user-facing message substituted by the catch at route.ts:734-748
for canvas/worker-class failures. -/
def canvasUnavailableMsg : String :=
  "Image-based PDF processing is currently unavailable. Please use a text-based PDF or convert your scanned PDF to a text-based format."

/-- The substring dispatch of the catch at route.ts:735-748: canvas or
rendering-worker errors are replaced by a friendly message, everything
else is re-thrown unchanged. -/
def rewriteCanvasError (m : String) : String :=
  if containsSub m "canvas" ||
     (containsSub m "rendering" &&
       (containsSub m "worker" || containsSub m "pdfjs-dist")) ||
     containsSub m "worker" || containsSub m "pdfjs-dist" ||
     containsSub m "Cannot find module" || containsSub m "@napi-rs/canvas" then
    canvasUnavailableMsg
  else m

/-- `extractImagesAsBase64` (route.ts:605-753): fails on a zero-page
document, returns the embedded images when any page yielded one, and
otherwise defers to the PDF.co fallback; all errors pass through the
canvas-error rewrite of the surrounding catch. -/
def extractImagesAsBase64 (doc : PdfDoc) (env : PdfCoEnv) :
    Except String (List DataUrl) :=
  Except.mapError rewriteCanvasError
    (if doc.pages.length = 0 then .error "PDF has no pages"
     else if 0 < (embeddedImages doc).length then .ok (embeddedImages doc)
     else convertPdfToImageViaApi doc env)

/-! ## Structured Extraction Invoker: request building (route.ts:113-329) -/

/-- JS `text.substring(0, n)`: the first `n` characters. -/
def jsSubstring (s : String) (n : Nat) : String :=
  ⟨s.data.take n⟩

/-- The inference request the handler sends to OpenAI, reduced to the data
the source computes: the model tier, the slice of extracted text embedded
in the prompt (`none` when the prompt carries no resume text, as in the
image-only prompt at route.ts:168-193), and the attached images. -/
structure InferenceRequest where
  model : String
  resumeText : Option String
  images : List DataUrl

/-- Thrown at route.ts:124-126 when text is under 50 characters and no
image was obtained. -/
def pdfcoNotConfiguredMsg : String :=
  "PDF.co API key is not configured. Please set the PDFCO_API_KEY environment variable in Vercel to process image-based PDFs."

/-- Thrown at route.ts:247-249 when no image survives validation. -/
def failedPrepareImagesMsg : String :=
  "Failed to prepare images for OpenAI. The images may be corrupted or invalid."

/-- Thrown at route.ts:282-284 (second low-text guard, text-only path). -/
def cannotProcessMsg : String :=
  "Cannot process image-based PDF. The PDF appears to be a scanned/image-based document with insufficient text. Please ensure PDFCO_API_KEY is configured in Vercel to process image-based PDFs."

/-- Per-image validation before attaching to the request
(route.ts:200-243): the data URL must match
`data:image/(png|jpeg|jpg);base64,<nonempty>` and stay within the
20,000,000-character OpenAI ceiling. -/
def validImage (d : DataUrl) : Bool :=
  decide ((d.mime = "image/jpeg" ∨ d.mime = "image/png" ∨ d.mime = "image/jpg") ∧
    0 < d.payloadLen ∧ d.urlLength ≤ 20000000)

/-- The message-building core shared by both continuations of the
text-length dispatch (route.ts:129-329): with images present, the model
tier is `gpt-4o` exactly when text is under 50 characters, and the prompt
embeds `text.substring(0, 50000)` exactly when text has at least 50
characters; with no images, low text throws and otherwise the text-only
prompt embeds `text.substring(0, 50000)`. -/
def buildRequestCore (text : String) (images : List DataUrl) :
    Except String InferenceRequest :=
  if !images.isEmpty then
    if (images.filter validImage).isEmpty then .error failedPrepareImagesMsg
    else
      .ok { model := if text.length < 50 then "gpt-4o" else "gpt-4o-mini",
            resumeText :=
              if 50 ≤ text.length then some (jsSubstring text 50000) else none,
            images := images.filter validImage }
  else
    if text.length < 50 then .error cannotProcessMsg
    else
      .ok { model := "gpt-4o-mini",
            resumeText := some (jsSubstring text 50000),
            images := [] }

/-- The mode dispatch at route.ts:115-127: abundant text with no images
skips image work; scarce text with no images throws the API-key error;
every other combination proceeds to message building. -/
def buildRequest (text : String) (images : List DataUrl) :
    Except String InferenceRequest :=
  if 100 ≤ text.length ∧ images.isEmpty then buildRequestCore text images
  else if text.length < 50 ∧ images.isEmpty then .error pdfcoNotConfiguredMsg
  else buildRequestCore text images

/-! ## Inference call outcome (route.ts:341-380) -/

/-- What the awaited OpenAI call produces: a rejection, or a reply whose
message content is `raw` and whose `JSON.parse` outcome is `parsed` (the
error side carries the parse error's message). -/
inductive InferenceOutcome where
  | failed (msg : String)
  | reply (raw : String) (parsed : Except String Json)

/-- Thrown at route.ts:358-360 on an empty or `\x7b\x7d` reply. -/
def emptyResponseMsg : String :=
  "OpenAI returned an empty response. The PDF may be too complex or the image quality may be insufficient."

/-- Thrown at route.ts:401-403 when an empty result was produced for an
image-based or low-text document. -/
def failedExtractMsg : String :=
  "Failed to extract data from image-based PDF. The PDF may be too complex, the image quality may be insufficient, or the PDF may not contain readable resume information."

/-! ## Job Ledger store (Prisma rows touched by the handler) -/

/-- A resume-history (audit) row. -/
structure AuditEntry where
  action : String
  status : String
  message : String

/-- The store rows the request touches: the principal's credit balance,
the request's single file record (`none` before creation), the upserted
resume data, and the append-only history list. -/
structure Store where
  credits : Int
  fileStatus : Option String
  resumeData : Option Json
  audit : List AuditEntry

/-! ## The POST handler (route.ts:18-515) -/

/-- Every external outcome the handler awaits, in one record. The four
`*Ok` flags are the individual outcomes of the four `Promise.all` success
operations (route.ts:415-448); `failUpdateOk`/`failAuditOk` are the
outcomes of the two failure-recording writes in the catch
(route.ts:490-508). -/
structure Env where
  sessionOk : Bool
  userFound : Bool
  planFree : Bool
  fileProvided : Bool
  textEnv : TextEnv
  doc : PdfDoc
  pdfco : PdfCoEnv
  inference : InferenceOutcome
  fileUpdateOk : Bool
  upsertOk : Bool
  historyOk : Bool
  debitOk : Bool
  storeErrMsg : String
  failUpdateOk : Bool
  failAuditOk : Bool

/-- The image list reaching the mode dispatch: `extractImagesAsBase64`
with its rejection swallowed into `[]` by the
`.catch(() => [] as string[])` at route.ts:101. -/
def imagesOf (e : Env) : List DataUrl :=
  match extractImagesAsBase64 e.doc e.pdfco with
  | .ok l => l
  | .error _ => []

/-- The pure try-body after job creation (route.ts:99-412): join text and
image extraction, build the request, await the inference reply, reject
empty or unparsable replies, reject an empty result under image-only or
low-text conditions, and normalize. Also returns the inference requests
actually issued. -/
def runPipeline (e : Env) : Except String Json × List InferenceRequest :=
  match extractTextFromPDF e.textEnv with
  | .error m => (.error m, [])
  | .ok text =>
    match buildRequest text (imagesOf e) with
    | .error m => (.error m, [])
    | .ok req =>
      match e.inference with
      | .failed m => (.error m, [req])
      | .reply raw parsed =>
        if jsTrim raw = "" ∨ raw = "\x7b\x7d" then (.error emptyResponseMsg, [req])
        else
          match parsed with
          | .error pm => (.error ("Failed to parse OpenAI response: " ++ pm), [req])
          | .ok j =>
            if isEmptyResult j &&
                ((!(imagesOf e).isEmpty && decide (text.length < 50)) ||
                  decide (text.length < 50)) then
              (.error failedExtractMsg, [req])
            else (.ok (reorderResumeData j), [req])

/-- The four success operations commit as one `Promise.all`
(route.ts:415-448). -/
def commitOk (e : Env) : Bool :=
  e.fileUpdateOk && e.upsertOk && e.historyOk && e.debitOk

/-- The effects of the four success operations: each one that individually
succeeded lands, whether or not the combined `Promise.all` resolves (the
operations are independent Prisma calls, not a transaction). -/
def applyCommit (e : Env) (result : Json) (s : Store) : Store :=
  { credits := if e.debitOk then s.credits - 100 else s.credits,
    fileStatus := if e.fileUpdateOk then some "completed" else s.fileStatus,
    resumeData := if e.upsertOk then some result else s.resumeData,
    audit := s.audit ++
      (if e.historyOk then [⟨"extract", "success", "Resume data extracted successfully"⟩]
       else []) }

/-- The failure-recording writes of the catch (route.ts:490-508): mark the
file failed, then append the failed audit entry with the causal message;
the two awaits run in order inside their own try, so a failed status
update skips the audit write, and any secondary failure is only logged. -/
def recordFailure (e : Env) (m : String) (s : Store) : Store :=
  if e.failUpdateOk then
    if e.failAuditOk then
      { s with fileStatus := some "failed",
               audit := s.audit ++ [⟨"extract", "failed", "Processing failed: " ++ m⟩] }
    else { s with fileStatus := some "failed" }
  else s

/-- The substring dispatch of the catch (route.ts:458-488) choosing the
user-facing message from the original error's message. -/
def userMessageFor (msg : String) : String :=
  if containsSub msg "worker" || containsSub msg "pdfjs-dist" ||
     containsSub msg "Cannot find module" then
    "Image-based PDF processing is currently unavailable. Please use a text-based PDF or convert your PDF to a text-based format."
  else if containsSub msg "Insufficient credits" then msg
  else if containsSub msg "image-based" || containsSub msg "OCR" then
    "Unable to process this image-based PDF. Please ensure the PDF contains selectable text or convert it to a text-based PDF."
  else if containsSub msg "timeout" then
    "PDF processing timed out. Please try with a smaller file or ensure the PDF is not corrupted."
  else if containsSub msg "corrupted" || containsSub msg "invalid" then
    "The PDF file appears to be corrupted or invalid. Please try with a different PDF file."
  else if msg.length < 200 then msg
  else "Failed to process PDF. Please try again or use a different file."

/-- An HTTP response of the route: a 200 JSON body, or an error status
with its JSON body. -/
inductive Response where
  | success (body : Json)
  | failure (status : Nat) (body : Json)

def Response.isSuccess : Response → Bool
  | .success _ => true
  | .failure _ _ => false

/-- A `\x7b error: msg \x7d` body. -/
def errBody (m : String) : Json :=
  Json.obj [("error", Json.str m)]

/-- The 402 envelope of route.ts:46-54. -/
def insufficientBody (credits : Int) (planFree : Bool) : Json :=
  Json.obj
    [("error", Json.str "Insufficient credits"),
     ("message", Json.str
       ("You need 100 credits to process a file. You have " ++ toString credits ++
        " credits remaining. " ++
        (if planFree then
          "Please subscribe to a plan to get more credits, or wait for your subscription to renew."
         else "Please top up your credits or wait for your subscription to renew."))),
     ("creditsRemaining", Json.num credits),
     ("creditsRequired", Json.num 100)]

/-- What one request produces: the HTTP response, the final store state,
and the inference requests issued along the way. -/
structure Outcome where
  response : Response
  store : Store
  calls : List InferenceRequest

/-- The catch path after the job entered processing (route.ts:455-513):
choose the user message from the original error, attempt the failure
recording, and return 500 with the user message — derived from the
original error whatever happens to the recording. -/
def abortOutcome (e : Env) (m : String) (calls : List InferenceRequest)
    (s : Store) : Outcome :=
  ⟨.failure 500 (errBody (userMessageFor m)), recordFailure e m s, calls⟩

/-- File-record creation and the synchronous upload audit entry
(route.ts:66-84). -/
def jobCreated (s : Store) : Store :=
  { s with fileStatus := some "processing",
           audit := s.audit ++ [⟨"upload", "success", "File uploaded successfully"⟩] }

/-- The POST handler (route.ts:18-515): the pre-gate early returns
(401/404/402/400), then job creation, the pipeline, and either the
four-way success commit or the catch path. -/
def POST (e : Env) (s0 : Store) : Outcome :=
  if !e.sessionOk then ⟨.failure 401 (errBody "Unauthorized"), s0, []⟩
  else if !e.userFound then ⟨.failure 404 (errBody "User not found"), s0, []⟩
  else if s0.credits < 100 then
    ⟨.failure 402 (insufficientBody s0.credits e.planFree), s0, []⟩
  else if !e.fileProvided then ⟨.failure 400 (errBody "No file uploaded"), s0, []⟩
  else
    match runPipeline e with
    | (.error m, calls) => abortOutcome e m calls (jobCreated s0)
    | (.ok result, calls) =>
      if commitOk e then ⟨.success result, applyCommit e result (jobCreated s0), calls⟩
      else abortOutcome e e.storeErrMsg calls (applyCommit e result (jobCreated s0))

/-! ## The secondary route's request builder (extract/route.ts:55-167) -/

/-- The message building of `/api/extract` (extract/route.ts:61-167):
under 50 characters of text, a successfully OCR-extracted data URL that
matches the `data:image/...;base64,<nonempty>` pattern gives the
image-only `gpt-4o` request; a non-matching data URL falls back to a
text-only message whose content is `text.substring(0, 50000)`; otherwise
the text prompt embeds `text.substring(0, 50000)`. -/
def extractRouteRequest (text : String) (ocrDataUrl : DataUrl) :
    InferenceRequest :=
  if text.length < 50 then
    if 0 < ocrDataUrl.payloadLen then
      { model := "gpt-4o", resumeText := none, images := [ocrDataUrl] }
    else
      { model := "gpt-4o-mini",
        resumeText := some (jsSubstring text 50000), images := [] }
  else
    { model := "gpt-4o-mini",
      resumeText := some (jsSubstring text 50000), images := [] }

/-! ## Concrete fixtures used by witnesses and counterexamples -/

/-- A 120-character extracted text (abundant-text regime). -/
def sampleText : String := String.mk (List.replicate 120 'a')

/-- A parsed inference reply with a profile name (not `isEmpty`). -/
def sampleParsed : Json :=
  Json.obj [("profile", Json.obj [("name", Json.str "John")])]

/-- A PDF.co environment with no `PDFCO_API_KEY` configured. -/
def pdfcoOff : PdfCoEnv :=
  { apiKeyConfigured := false, uploadOk := true, uploadStatusText := "",
    uploadUrl := none, convertOk := true, convertStatusText := "",
    pageDownloads := [], convertBody := none }

/-- A one-page PDF with no embedded images. -/
def onePageNoImages : PdfDoc := ⟨[⟨false, []⟩]⟩

/-- A fully successful run: abundant text, no images, a good inference
reply, all store writes succeeding. -/
def happyEnv : Env :=
  { sessionOk := true, userFound := true, planFree := false, fileProvided := true,
    textEnv := ⟨false, .ok sampleText⟩,
    doc := onePageNoImages, pdfco := pdfcoOff,
    inference := .reply "x" (.ok sampleParsed),
    fileUpdateOk := true, upsertOk := true, historyOk := true, debitOk := true,
    storeErrMsg := "Record to update not found.",
    failUpdateOk := true, failAuditOk := true }

/-- A store with 500 credits and no rows for this request yet. -/
def initialStore : Store := ⟨500, none, none, []⟩

/-- A store whose principal has only 50 credits. -/
def lowStore : Store := ⟨50, none, none, []⟩

/-- Scarce text (5 characters), no images obtainable. -/
def noSignalEnv : Env := { happyEnv with textEnv := ⟨false, .ok "short"⟩ }

/-- The pdf2json 30-second timeout fires. -/
def timeoutEnv : Env := { happyEnv with textEnv := ⟨true, .ok ""⟩ }

/-- A run that succeeds until the four-way success commit, where the
file-status update rejects while the debit resolves. -/
def partialCommitEnv : Env := { happyEnv with fileUpdateOk := false }

/-- PDF.co answers the conversion request with a direct base64 `body` of
5,000,000 characters (no `urls` array). -/
def oversizeBodyEnv : Env :=
  { happyEnv with pdfco :=
    { apiKeyConfigured := true, uploadOk := true, uploadStatusText := "",
      uploadUrl := some "u", convertOk := true, convertStatusText := "",
      pageDownloads := [], convertBody := some 5000000 } }

/-- A five-page PDF, each page carrying one qualifying embedded image. -/
def multiPageDoc : PdfDoc :=
  ⟨List.replicate 5 ⟨false, [⟨true, List.replicate 1001 0⟩]⟩⟩

/-- The pre-gate of the handler (route.ts:24-61): session present, user
row found, sufficient credits, file present in the form data. -/
def preGate (e : Env) (s0 : Store) : Prop :=
  e.sessionOk = true ∧ e.userFound = true ∧ ¬ s0.credits < 100 ∧
    e.fileProvided = true

/-- The error whose message the catch block reports: the pipeline's own
error, or — when the pipeline succeeded but the four-way success commit
rejected — the store error. `none` on a fully successful run. -/
def originalError (e : Env) : Option String :=
  match (runPipeline e).1 with
  | .error m => some m
  | .ok _ => if commitOk e then none else some e.storeErrMsg

/-! ## Helper lemmas -/

theorem reorderSection_idem (j : Json) :
    reorderSection (reorderSection j) = reorderSection j := by
  cases j <;> rfl

theorem reorderProfile_idem (p : Json) :
    reorderProfile (reorderProfile p) = reorderProfile p := by
  simp [reorderProfile, getField, findField]

theorem topKeys_reorder (j : Json) :
    topKeys (reorderResumeData j) = resumeKeys := rfl

/-- Every `ok` the pipeline returns is a normalized result. -/
theorem runPipeline_ok (e : Env) (r : Json)
    (h : (runPipeline e).1 = .ok r) : ∃ j, r = reorderResumeData j := by
  unfold runPipeline at h
  split at h
  · exact Except.noConfusion h
  · split at h
    · exact Except.noConfusion h
    · split at h
      · exact Except.noConfusion h
      · split at h
        · exact Except.noConfusion h
        · split at h
          · exact Except.noConfusion h
          · split at h
            · exact Except.noConfusion h
            · exact ⟨_, (Except.ok.inj h).symm⟩

/-- With scarce text and no images the mode dispatch throws the API-key
error before any message is built (route.ts:122-127), and the handler
aborts without calling OpenAI. -/
theorem lowTextAbortPost (e : Env) (s0 : Store) (t : String)
    (h1 : e.sessionOk = true) (h2 : e.userFound = true)
    (h3 : ¬ s0.credits < 100) (h4 : e.fileProvided = true)
    (h5 : extractTextFromPDF e.textEnv = .ok t)
    (h6 : t.length < 50) (h7 : imagesOf e = []) :
    POST e s0 = abortOutcome e pdfcoNotConfiguredMsg [] (jobCreated s0) := by
  have hb : buildRequest t [] = .error pdfcoNotConfiguredMsg := by
    unfold buildRequest
    rw [if_neg, if_pos]
    · exact ⟨h6, rfl⟩
    · rintro ⟨ha, _⟩
      omega
  have hrun : runPipeline e = (.error pdfcoNotConfiguredMsg, []) := by
    simp [runPipeline, h5, h7, hb]
  simp [POST, h1, h2, h3, h4, hrun]

/-- Any image the per-page scan accepts fits in 4,000,000 characters. -/
theorem pageScan_le (xs : List XObj) (d : DataUrl)
    (h : pageScan xs = some d) : d.urlLength ≤ 4000000 := by
  induction xs with
  | nil => exact Option.noConfusion h
  | cons x rest ih =>
    simp only [pageScan] at h
    split at h
    · split at h
      next hlt => exact ih h
      next hlt =>
        obtain rfl := Option.some.inj h
        exact Nat.not_lt.mp hlt
    · exact ih h

/-- Any image of the embedded path fits in 4,000,000 characters. -/
theorem embeddedImages_size_le (doc : PdfDoc) (d : DataUrl)
    (h : d ∈ embeddedImages doc) : d.urlLength ≤ 4000000 := by
  obtain ⟨p, hp, hd⟩ := List.mem_filterMap.mp h
  unfold extractPageImage at hd
  split at hd
  · exact Option.noConfusion hd
  · exact pageScan_le _ _ hd

/-- The embedded path yields at most 3 images. -/
theorem embeddedImages_length_le (doc : PdfDoc) :
    (embeddedImages doc).length ≤ 3 :=
  le_trans (List.length_filterMap_le _ _) (List.length_take_le _ _)

/-- Any image the download fan-out keeps fits in 4,000,000 characters. -/
theorem downloadDataUrl_le (o : Option Nat) (d : DataUrl)
    (h : downloadDataUrl o = some d) : d.urlLength ≤ 4000000 := by
  cases o with
  | none => exact Option.noConfusion h
  | some n =>
    simp only [downloadDataUrl] at h
    split at h
    next hlt => exact Option.noConfusion h
    next hlt =>
      obtain rfl := Option.some.inj h
      exact Nat.not_lt.mp hlt

/-- The download fan-out is capped at 3 pages. -/
theorem convertMaxPages_le (doc : PdfDoc) (env : PdfCoEnv) :
    convertMaxPages doc env ≤ 3 := by
  unfold convertMaxPages
  split <;> exact Nat.min_le_right _ _

/-- The rasterization fallback returns at most 3 images. -/
theorem convert_length_le (doc : PdfDoc) (env : PdfCoEnv)
    (imgs : List DataUrl)
    (h : convertPdfToImageViaApi doc env = .ok imgs) : imgs.length ≤ 3 := by
  unfold convertPdfToImageViaApi at h
  split at h
  · exact Except.noConfusion h
  · split at h
    · exact Except.noConfusion h
    · split at h
      · exact Except.noConfusion h
      · split at h
        · exact Except.noConfusion h
        · split at h
          · split at h
            · obtain rfl := Except.ok.inj h
              exact le_trans
                (le_trans (List.length_filterMap_le _ _)
                  (List.length_take_le _ _))
                (convertMaxPages_le doc env)
            · exact Except.noConfusion h
          · split at h
            · obtain rfl := Except.ok.inj h
              exact (by decide : (1 : Nat) ≤ 3)
            · exact Except.noConfusion h

/-- Image extraction overall returns at most 3 images. -/
theorem extract_length_le (doc : PdfDoc) (env : PdfCoEnv)
    (imgs : List DataUrl)
    (h : extractImagesAsBase64 doc env = .ok imgs) : imgs.length ≤ 3 := by
  unfold extractImagesAsBase64 at h
  split at h
  · exact Except.noConfusion h
  · split at h
    · obtain rfl := Except.ok.inj h
      exact embeddedImages_length_le doc
    · cases hc : convertPdfToImageViaApi doc env with
      | error m => rw [hc] at h; exact Except.noConfusion h
      | ok l =>
        rw [hc] at h
        obtain rfl := Except.ok.inj h
        exact convert_length_le _ _ _ hc

/-- Shape of a successfully built message set: the attached images are
the validated sublist of the available images (or none at all in the
text-only prompt), and any resume text embedded in the prompt is the
50,000-character substring. -/
theorem buildRequestCore_ok (t : String) (images : List DataUrl)
    (req : InferenceRequest) (h : buildRequestCore t images = .ok req) :
    (req.images = images.filter validImage ∨ req.images = []) ∧
    (∀ s, req.resumeText = some s → s = jsSubstring t 50000) := by
  unfold buildRequestCore at h
  split at h
  · split at h
    · exact Except.noConfusion h
    · obtain rfl := Except.ok.inj h
      refine ⟨Or.inl rfl, ?_⟩
      intro s hs
      dsimp only at hs
      split at hs
      · exact (Option.some.inj hs).symm
      · exact Option.noConfusion hs
  · split at h
    · exact Except.noConfusion h
    · obtain rfl := Except.ok.inj h
      refine ⟨Or.inr rfl, ?_⟩
      intro s hs
      dsimp only at hs
      exact (Option.some.inj hs).symm

/-- Lifting `buildRequestCore_ok` through the mode dispatch. -/
theorem buildRequest_ok (t : String) (images : List DataUrl)
    (req : InferenceRequest) (h : buildRequest t images = .ok req) :
    (req.images = images.filter validImage ∨ req.images = []) ∧
    (∀ s, req.resumeText = some s → s = jsSubstring t 50000) := by
  unfold buildRequest at h
  split at h
  · exact buildRequestCore_ok t images req h
  · split at h
    · exact Except.noConfusion h
    · exact buildRequestCore_ok t images req h

/-- Once a request is built, every later stage issues exactly it. -/
theorem runPipeline_snd (e : Env) (t : String) (req' : InferenceRequest)
    (heq : extractTextFromPDF e.textEnv = .ok t)
    (heq2 : buildRequest t (imagesOf e) = .ok req') :
    (runPipeline e).2 = [req'] := by
  unfold runPipeline
  rw [heq]
  dsimp only
  rw [heq2]
  dsimp only
  split
  · rfl
  · split
    · rfl
    · split
      · rfl
      · split <;> rfl

/-- Every issued inference request was built by `buildRequest` from the
extracted text and the swallowed-failure image list. -/
theorem runPipeline_calls (e : Env) (req : InferenceRequest)
    (h : req ∈ (runPipeline e).2) :
    ∃ t, extractTextFromPDF e.textEnv = .ok t ∧
      buildRequest t (imagesOf e) = .ok req := by
  cases hex : extractTextFromPDF e.textEnv with
  | error m =>
    have hnil : (runPipeline e).2 = [] := by
      unfold runPipeline
      rw [hex]
    rw [hnil] at h
    exact absurd h (List.not_mem_nil req)
  | ok t =>
    cases hb : buildRequest t (imagesOf e) with
    | error m =>
      have hnil : (runPipeline e).2 = [] := by
        unfold runPipeline
        rw [hex]
        dsimp only
        rw [hb]
      rw [hnil] at h
      exact absurd h (List.not_mem_nil req)
    | ok req' =>
      rw [runPipeline_snd e t req' hex hb, List.mem_singleton] at h
      subst h
      exact ⟨t, rfl, hb⟩

/-- The handler's issued calls are the pipeline's issued calls. -/
theorem post_calls (e : Env) (s0 : Store) (req : InferenceRequest)
    (h : req ∈ (POST e s0).calls) :
    ∃ t, extractTextFromPDF e.textEnv = .ok t ∧
      buildRequest t (imagesOf e) = .ok req := by
  unfold POST at h
  split at h
  · exact absurd h (List.not_mem_nil req)
  split at h
  · exact absurd h (List.not_mem_nil req)
  split at h
  · exact absurd h (List.not_mem_nil req)
  split at h
  · exact absurd h (List.not_mem_nil req)
  split at h
  next m calls heq =>
    refine runPipeline_calls e req ?_
    rw [heq]
    exact h
  next result calls heq =>
    split at h
    · refine runPipeline_calls e req ?_
      rw [heq]
      exact h
    · refine runPipeline_calls e req ?_
      rw [heq]
      exact h

/-- The available image list is bounded by 3 whatever happened. -/
theorem imagesOf_length_le (e : Env) : (imagesOf e).length ≤ 3 := by
  unfold imagesOf
  cases hx : extractImagesAsBase64 e.doc e.pdfco with
  | ok l => exact extract_length_le _ _ _ hx
  | error m => exact (by decide : (0 : Nat) ≤ 3)

/-- With no `PDFCO_API_KEY`, the fallback fails with the distinguished
`SCANNED_PDF_LIMITATION` error before any API interaction. -/
theorem convert_missing_key (doc : PdfDoc) (env : PdfCoEnv)
    (h : env.apiKeyConfigured = false) :
    convertPdfToImageViaApi doc env = .error scannedPdfLimitationMsg := by
  simp [convertPdfToImageViaApi, h]

/-- The catch-level canvas rewrite leaves the missing-capability message
untouched (it contains none of the trigger substrings). -/
theorem rewriteCanvasError_scanned :
    rewriteCanvasError scannedPdfLimitationMsg = scannedPdfLimitationMsg := rfl

/-! ## Claims -/

/-- C7: The result normalizer is idempotent: for every structured result
`x`, `normalize (normalize x) = normalize x`. -/
theorem c7_normalize_idempotent (j : Json) :
    reorderResumeData (reorderResumeData j) = reorderResumeData j := by
  simp [reorderResumeData, getField, findField, reorderProfile_idem,
    reorderSection_idem]

/-- C1: every successful (non-error) response body carries exactly the
nine top-level keys (profile plus the eight arrays), in template order,
whatever the environment and however empty the extracted content. -/
theorem c1_success_template_shaped (e : Env) (s0 : Store) (b : Json)
    (h : (POST e s0).response = Response.success b) :
    topKeys b = resumeKeys := by
  unfold POST at h
  split at h
  · exact Response.noConfusion h
  split at h
  · exact Response.noConfusion h
  split at h
  · exact Response.noConfusion h
  split at h
  · exact Response.noConfusion h
  split at h
  · exact Response.noConfusion h
  next result calls heq =>
    split at h
    · obtain ⟨j, hj⟩ := runPipeline_ok e result (by rw [heq])
      rw [← Response.success.inj h, hj]
      exact topKeys_reorder j
    · exact Response.noConfusion h

/-- C1 witness: a concrete fully successful run, whose body indeed has
the nine template keys. -/
theorem c1_witness :
    topKeys (reorderResumeData sampleParsed) = resumeKeys :=
  c1_success_template_shaped happyEnv initialStore
    (reorderResumeData sampleParsed) rfl

/-- C6: a principal whose balance is below the fixed cost of 100 fails
immediately with the 402 envelope carrying `creditsRemaining` and
`creditsRequired`; the store is untouched (no file record, no audit
entry) and no inference request is issued. -/
theorem c6_insufficient_credits_fail_fast (e : Env) (s0 : Store)
    (h1 : e.sessionOk = true) (h2 : e.userFound = true)
    (h3 : s0.credits < 100) :
    POST e s0 =
      ⟨.failure 402 (insufficientBody s0.credits e.planFree), s0, []⟩ ∧
    getField (insufficientBody s0.credits e.planFree) "creditsRemaining" =
      Json.num s0.credits ∧
    getField (insufficientBody s0.credits e.planFree) "creditsRequired" =
      Json.num 100 := by
  refine ⟨?_, ?_, ?_⟩
  · simp [POST, h1, h2, h3]
  · simp [insufficientBody, getField, findField]
  · simp [insufficientBody, getField, findField]

/-- C6 witness: a concrete principal with 50 credits. -/
theorem c6_witness :
    POST happyEnv lowStore =
      ⟨.failure 402 (insufficientBody lowStore.credits happyEnv.planFree),
        lowStore, []⟩ ∧
    getField (insufficientBody lowStore.credits happyEnv.planFree)
      "creditsRemaining" = Json.num lowStore.credits ∧
    getField (insufficientBody lowStore.credits happyEnv.planFree)
      "creditsRequired" = Json.num 100 :=
  c6_insufficient_credits_fail_fast happyEnv lowStore rfl rfl (by decide)

/-- C3: with fewer than 50 characters of extracted text and zero
available images, the pipeline aborts (the thrown no-usable-signal error
surfaces as the image-based-PDF user message) without issuing any
inference request and without returning a result. -/
theorem c3_no_signal_unprocessable (e : Env) (s0 : Store) (t : String)
    (h1 : e.sessionOk = true) (h2 : e.userFound = true)
    (h3 : ¬ s0.credits < 100) (h4 : e.fileProvided = true)
    (h5 : extractTextFromPDF e.textEnv = .ok t)
    (h6 : t.length < 50) (h7 : imagesOf e = []) :
    (POST e s0).calls = [] ∧
    (POST e s0).response =
      .failure 500 (errBody (userMessageFor pdfcoNotConfiguredMsg)) := by
  rw [lowTextAbortPost e s0 t h1 h2 h3 h4 h5 h6 h7]
  exact ⟨rfl, rfl⟩

/-- C3 witness: a concrete 5-character text with no obtainable images. -/
theorem c3_witness :
    (POST noSignalEnv initialStore).calls = [] ∧
    (POST noSignalEnv initialStore).response =
      .failure 500 (errBody (userMessageFor pdfcoNotConfiguredMsg)) :=
  c3_no_signal_unprocessable noSignalEnv initialStore "short" rfl rfl
    (by decide) rfl rfl (by decide) rfl

/-- C2: the four success operations are independent Prisma calls inside
one `Promise.all` (route.ts:415-448), not a transaction. At the concrete
failing input — every pipeline stage succeeds, the debit resolves, but
the file-status update rejects — the handler returns an error and the job
ends `failed`, yet the balance has been debited by the fixed cost of 100.
This contradicts the claim that on every failure path the balance is
unchanged and that the debit happens only on transition to `completed`. -/
theorem c2_debit_on_failed_job :
    (POST partialCommitEnv initialStore).response.isSuccess = false ∧
    (POST partialCommitEnv initialStore).store.credits =
      initialStore.credits - 100 ∧
    (POST partialCommitEnv initialStore).store.fileStatus = some "failed" :=
  ⟨rfl, rfl, rfl⟩

/-- C9: once past the pre-gate, for every aborted run (whatever stage
produced the original error `m`, the store-commit rejection included) the
catch path marks the job failed when the status write succeeds, appends
the failed audit entry carrying the causal message when that write also
succeeds, and in all cases returns the 500 response derived from `m`
alone — a failing recording write cannot change the returned error, which
is a function of `m` only. -/
theorem c9_failure_recording_preserves_cause (e : Env) (s0 : Store)
    (m : String) (hg : preGate e s0) (h : originalError e = some m) :
    (POST e s0).response = .failure 500 (errBody (userMessageFor m)) ∧
    (e.failUpdateOk = true →
      (POST e s0).store.fileStatus = some "failed") ∧
    (e.failUpdateOk = true → e.failAuditOk = true →
      (POST e s0).store.audit.getLast? =
        some ⟨"extract", "failed", "Processing failed: " ++ m⟩) := by
  obtain ⟨h1, h2, h3, h4⟩ := hg
  have hpost :
      POST e s0 =
        match runPipeline e with
        | (.error m', calls) => abortOutcome e m' calls (jobCreated s0)
        | (.ok result, calls) =>
          if commitOk e then
            ⟨.success result, applyCommit e result (jobCreated s0), calls⟩
          else abortOutcome e e.storeErrMsg calls
            (applyCommit e result (jobCreated s0)) := by
    simp [POST, h1, h2, h3, h4]
  rcases hrp : runPipeline e with ⟨res, calls⟩
  have habort : ∀ (m' : String) (s : Store),
      (abortOutcome e m' calls s).response =
          .failure 500 (errBody (userMessageFor m')) ∧
      (e.failUpdateOk = true →
        (abortOutcome e m' calls s).store.fileStatus = some "failed") ∧
      (e.failUpdateOk = true → e.failAuditOk = true →
        (abortOutcome e m' calls s).store.audit.getLast? =
          some ⟨"extract", "failed", "Processing failed: " ++ m'⟩) := by
    intro m' s
    refine ⟨rfl, ?_, ?_⟩
    · intro hu
      cases hau : e.failAuditOk <;>
        simp [abortOutcome, recordFailure, hu, hau]
    · intro hu ha
      simp [abortOutcome, recordFailure, hu, ha]
  cases res with
  | error m' =>
    have hm : m' = m := by
      simpa [originalError, hrp] using h
    rw [hpost, hrp, hm]
    exact habort m _
  | ok result =>
    have hco : commitOk e = false ∧ e.storeErrMsg = m := by
      rcases hc : commitOk e with _ | _
      · refine ⟨rfl, ?_⟩
        simpa [originalError, hrp, hc] using h
      · exfalso
        simp [originalError, hrp, hc] at h
    rw [hpost, hrp]
    dsimp only
    rw [if_neg (by simp [hco.1])]
    rw [hco.2]
    exact habort m _

/-- C9 witness: a concrete run aborted by the 30-second text-extraction
timeout, with both failure-recording writes succeeding. -/
theorem c9_witness :
    (POST timeoutEnv initialStore).response =
      .failure 500 (errBody (userMessageFor
        "Failed to extract text from PDF: PDF parsing timeout after 30 seconds")) ∧
    (timeoutEnv.failUpdateOk = true →
      (POST timeoutEnv initialStore).store.fileStatus = some "failed") ∧
    (timeoutEnv.failUpdateOk = true → timeoutEnv.failAuditOk = true →
      (POST timeoutEnv initialStore).store.audit.getLast? =
        some ⟨"extract", "failed",
          "Processing failed: " ++
            "Failed to extract text from PDF: PDF parsing timeout after 30 seconds"⟩) :=
  c9_failure_recording_preserves_cause timeoutEnv initialStore
    "Failed to extract text from PDF: PDF parsing timeout after 30 seconds"
    ⟨rfl, rfl, by decide, rfl⟩ rfl

/-- C4: image extraction never returns more than 3 images (embedded path
and rasterization fallback alike), and no issued inference request ever
carries more than 3 images, whatever the document's page count. -/
theorem c4_at_most_three_images :
    (∀ (doc : PdfDoc) (env : PdfCoEnv) (imgs : List DataUrl),
      extractImagesAsBase64 doc env = .ok imgs → imgs.length ≤ 3) ∧
    (∀ (e : Env) (s0 : Store) (req : InferenceRequest),
      req ∈ (POST e s0).calls → req.images.length ≤ 3) := by
  constructor
  · exact extract_length_le
  · intro e s0 req h
    obtain ⟨t, hex, hb⟩ := post_calls e s0 req h
    obtain ⟨himg, _⟩ := buildRequest_ok t (imagesOf e) req hb
    rcases himg with h1 | h1
    · rw [h1]
      exact le_trans (List.length_filter_le _ _) (imagesOf_length_le e)
    · rw [h1]
      exact (by decide : (0 : Nat) ≤ 3)

/-- C4 witness: a five-page PDF with a qualifying embedded image on each
page yields exactly 3 images, and a concrete issued request carries at
most 3 images. -/
theorem c4_witness :
    (List.replicate 3 (DataUrl.mk "image/jpeg" 1336)).length ≤ 3 ∧
    (InferenceRequest.mk "gpt-4o-mini" (some (jsSubstring sampleText 50000))
      [⟨"image/png", 5000000⟩]).images.length ≤ 3 :=
  ⟨c4_at_most_three_images.1 multiPageDoc pdfcoOff
      (List.replicate 3 (DataUrl.mk "image/jpeg" 1336)) rfl,
   c4_at_most_three_images.2 oversizeBodyEnv initialStore
      (InferenceRequest.mk "gpt-4o-mini" (some (jsSubstring sampleText 50000))
        [⟨"image/png", 5000000⟩]) (List.mem_singleton.mpr rfl)⟩

/-- C10: any resume text embedded in an inference request — by the upload
route's message builder, by the full upload handler, or by the secondary
extract route's builder — is exactly `text.substring(0, 50000)`: at most
the first 50,000 characters, a prefix of the extracted text, with the
remainder silently dropped. -/
theorem c10_prompt_text_capped :
    (∀ (t : String) (images : List DataUrl) (req : InferenceRequest)
      (s : String), buildRequest t images = .ok req →
      req.resumeText = some s → s = jsSubstring t 50000) ∧
    (∀ (e : Env) (s0 : Store) (req : InferenceRequest) (s : String),
      req ∈ (POST e s0).calls → req.resumeText = some s →
      ∃ t, extractTextFromPDF e.textEnv = .ok t ∧ s = jsSubstring t 50000) ∧
    (∀ (t : String) (d : DataUrl) (s : String),
      (extractRouteRequest t d).resumeText = some s →
      s = jsSubstring t 50000) ∧
    (∀ (t : String) (n : Nat),
      (jsSubstring t n).length ≤ n ∧ (jsSubstring t n).data <+: t.data) := by
  refine ⟨?_, ?_, ?_, ?_⟩
  · intro t images req s hb hs
    exact (buildRequest_ok t images req hb).2 s hs
  · intro e s0 req s h hs
    obtain ⟨t, hex, hb⟩ := post_calls e s0 req h
    exact ⟨t, hex, (buildRequest_ok t (imagesOf e) req hb).2 s hs⟩
  · intro t d s hs
    unfold extractRouteRequest at hs
    split at hs
    · split at hs
      · exact Option.noConfusion hs
      · exact (Option.some.inj hs).symm
    · exact (Option.some.inj hs).symm
  · intro t n
    constructor
    · show (t.data.take n).length ≤ n
      exact List.length_take_le n t.data
    · exact List.take_prefix n t.data

/-- C10 witness: a concrete text-only request built from the 120-character
sample text embeds exactly its (identity) 50,000-character substring. -/
theorem c10_witness :
    jsSubstring sampleText 50000 = jsSubstring sampleText 50000 ∧
    (jsSubstring sampleText 50000).length ≤ 50000 ∧
    (jsSubstring sampleText 50000).data <+: sampleText.data :=
  ⟨c10_prompt_text_capped.1 sampleText []
      (InferenceRequest.mk "gpt-4o-mini" (some (jsSubstring sampleText 50000)) [])
      (jsSubstring sampleText 50000) rfl rfl,
   c10_prompt_text_capped.2.2.2 sampleText 50000⟩

/-- C5 counterexample: when PDF.co answers the conversion request with a
direct base64 `body` (route.ts:908-910), no 4,000,000-character check is
applied; a 5,000,000-character payload reaches the issued inference
request (it only had to pass the 20,000,000-character check of the
request builder). -/
theorem c5_counterexample :
    extractImagesAsBase64 oversizeBodyEnv.doc oversizeBodyEnv.pdfco =
      .ok [⟨"image/png", 5000000⟩] ∧
    ∃ req ∈ (POST oversizeBodyEnv initialStore).calls,
      ∃ d ∈ req.images, 4000000 < d.payloadLen ∧ 4000000 < d.urlLength :=
  ⟨rfl,
   ⟨InferenceRequest.mk "gpt-4o-mini" (some (jsSubstring sampleText 50000))
      [⟨"image/png", 5000000⟩],
    List.mem_singleton.mpr rfl,
    ⟨"image/png", 5000000⟩, List.mem_singleton.mpr rfl,
    by decide, by decide⟩⟩

/-- C5 (amended): every image kept by the embedded-image scan and every
image kept by the URL-download fan-out fits its base64 data URL in
4,000,000 characters (larger ones are discarded, not truncated); but an
image delivered to the inference request is in general only bounded by
the request builder's 20,000,000-character check — the direct base64
`body` response of the conversion API bypasses the 4,000,000 bound. -/
theorem c5_amended_size_bounds :
    (∀ (doc : PdfDoc) (d : DataUrl),
      d ∈ embeddedImages doc → d.urlLength ≤ 4000000) ∧
    (∀ (o : Option Nat) (d : DataUrl),
      downloadDataUrl o = some d → d.urlLength ≤ 4000000) ∧
    (∀ (e : Env) (s0 : Store) (req : InferenceRequest),
      req ∈ (POST e s0).calls → ∀ d ∈ req.images,
        d.urlLength ≤ 20000000) := by
  refine ⟨embeddedImages_size_le, downloadDataUrl_le, ?_⟩
  intro e s0 req h d hd
  obtain ⟨t, hex, hb⟩ := post_calls e s0 req h
  obtain ⟨himg, _⟩ := buildRequest_ok t (imagesOf e) req hb
  rcases himg with h1 | h1
  · rw [h1] at hd
    have hv : validImage d = true := List.of_mem_filter hd
    simp only [validImage, decide_eq_true_eq] at hv
    exact hv.2.2
  · rw [h1] at hd
    exact absurd hd (List.not_mem_nil d)

/-- C5 witness: a concrete embedded image and a concrete downloaded image
are both within the 4,000,000-character bound. -/
theorem c5_witness :
    (DataUrl.mk "image/jpeg" 1336).urlLength ≤ 4000000 ∧
    (DataUrl.mk "image/png" (base64Length 30)).urlLength ≤ 4000000 :=
  ⟨c5_amended_size_bounds.1 multiPageDoc ⟨"image/jpeg", 1336⟩
      (List.mem_cons_self _ _),
   c5_amended_size_bounds.2.1 (some 30) ⟨"image/png", base64Length 30⟩ rfl⟩

/-- C8 counterexample: embedded extraction yields nothing and no
`PDFCO_API_KEY` is configured, so image extraction rejects with the
distinguished missing-capability error — yet the text is abundant, the
`.catch(() => [])` at route.ts:101 swallows the rejection, and the run
completes successfully: no failure of any kind is surfaced to the
caller. -/
theorem c8_counterexample :
    extractImagesAsBase64 happyEnv.doc happyEnv.pdfco =
      .error scannedPdfLimitationMsg ∧
    (POST happyEnv initialStore).response =
      .success (reorderResumeData sampleParsed) ∧
    (POST happyEnv initialStore).store.fileStatus = some "completed" :=
  ⟨rfl, rfl, rfl⟩

/-- C8 (amended): the rasterization fallback does fail with the
distinguished `SCANNED_PDF_LIMITATION` missing-capability error whenever
the capability is not configured, and that error passes unrewritten out
of the image extractor when the embedded scan found nothing on a
non-empty document; but the upload handler swallows image-extraction
failures, so the caller sees a missing-capability failure only when the
extracted text is also under 50 characters — surfaced then via the
separate API-key-not-configured throw of the mode dispatch. -/
theorem c8_amended_missing_capability :
    (∀ (doc : PdfDoc) (env : PdfCoEnv), env.apiKeyConfigured = false →
      convertPdfToImageViaApi doc env = .error scannedPdfLimitationMsg) ∧
    (∀ (doc : PdfDoc) (env : PdfCoEnv), env.apiKeyConfigured = false →
      doc.pages.length ≠ 0 → embeddedImages doc = [] →
      extractImagesAsBase64 doc env = .error scannedPdfLimitationMsg) ∧
    (∀ (e : Env) (s0 : Store) (t : String),
      e.sessionOk = true → e.userFound = true → ¬ s0.credits < 100 →
      e.fileProvided = true → extractTextFromPDF e.textEnv = .ok t →
      t.length < 50 → imagesOf e = [] →
      (POST e s0).response =
        .failure 500 (errBody (userMessageFor pdfcoNotConfiguredMsg))) := by
  refine ⟨convert_missing_key, ?_, ?_⟩
  · intro doc env hk hp he
    unfold extractImagesAsBase64
    rw [if_neg hp, he]
    rw [if_neg (by decide : ¬ (0 < ([] : List DataUrl).length))]
    rw [convert_missing_key doc env hk]
    simp [Except.mapError, rewriteCanvasError_scanned]
  · intro e s0 t h1 h2 h3 h4 h5 h6 h7
    rw [lowTextAbortPost e s0 t h1 h2 h3 h4 h5 h6 h7]
    rfl

/-- C8 witness: concrete instances — the fallback's distinguished error
on a one-page document with no key, and the surfaced failure of a
low-text run. -/
theorem c8_witness :
    extractImagesAsBase64 onePageNoImages pdfcoOff =
      .error scannedPdfLimitationMsg ∧
    (POST noSignalEnv initialStore).response =
      .failure 500 (errBody (userMessageFor pdfcoNotConfiguredMsg)) :=
  ⟨c8_amended_missing_capability.2.1 onePageNoImages pdfcoOff rfl
      (by decide) rfl,
   c8_amended_missing_capability.2.2 noSignalEnv initialStore "short"
      rfl rfl (by decide) rfl rfl (by decide) rfl⟩

end OcrPipeline
